import Mathlib

/-!
Shallow embedding of the conversational-character program
(`core/character.py` and `core/advanced_features.py`).

Modelling conventions:
* Python strings are Lean `String`s; `len` is `String.length` (code points).
* `str.strip()`, `str.split()`, `str.startswith`, slicing and substring
  containment (`in`) are modelled by executable functions over `String.data`.
* `datetime.now()` is not modelled; every operation that stamps a record
  receives the timestamp as an explicit `ts : String` argument
  (`datetime.now().isoformat()` produces an ISO string `date ++ "T" ++ time`).
* `random.choice(xs)` is modelled by an explicit `pick : Nat` argument that
  selects `xs[pick % len(xs)]`; no claim depends on the distribution.
* Raising an exception is modelled by returning the error alongside the
  unchanged receiver state (mutating methods return
  `state × Option PyError` or `state × Except PyError result`), because the
  Python methods raise before performing any mutation.
* The `isinstance(text, str)` check of `validate_input` is satisfied by the
  Lean type system and has no residue in the embedding.
-/

/-- Whitespace test used by Python `str.strip` / `str.split` (ASCII and
Unicode whitespace; `Char.isWhitespace` is the Lean counterpart). -/
def wsChar (c : Char) : Bool := c.isWhitespace

/-- Python `s.strip()`: remove leading and trailing whitespace. -/
def pyStrip (s : String) : String :=
  String.mk (((s.data.dropWhile wsChar).reverse.dropWhile wsChar).reverse)

/-- Occurrence of `needle` as a contiguous sublist of `hay`. -/
def listIsInfix (needle hay : List Char) : Bool :=
  (List.range (hay.length + 1)).any (fun i => needle.isPrefixOf (hay.drop i))

/-- Python `needle in hay` for strings: substring containment. -/
def strIn (needle hay : String) : Bool := listIsInfix needle.data hay.data

/-- Python `s.startswith(p)`. -/
def pyStartsWith (s p : String) : Bool := p.data.isPrefixOf s.data

/-- Python slice `s[:n]`. -/
def pyTake (s : String) (n : Nat) : String := String.mk (s.data.take n)

/-- Python slice `s[-n:]` (the whole string when `len(s) < n`). -/
def pyTakeLast (s : String) (n : Nat) : String :=
  String.mk (s.data.drop (s.data.length - n))

/-- Accumulator pass of Python `str.split()` with no separator: split on runs
of whitespace, discarding empty pieces.  `acc` holds the current word in
reverse. -/
def pyWordsAux : List Char → List Char → List (List Char)
  | [], acc => if acc = [] then [] else [acc.reverse]
  | c :: cs, acc =>
    if wsChar c then
      (if acc = [] then pyWordsAux cs [] else acc.reverse :: pyWordsAux cs [])
    else pyWordsAux cs (c :: acc)

/-- Python `s.split()` (whitespace words). -/
def pyWords (s : String) : List (List Char) := pyWordsAux s.data []

/-- Python `len(s.split())`: number of whitespace-separated words. -/
def wordCount (s : String) : Nat := (pyWords s).length

/-- Round-half-to-even on rationals, the idealized semantics of Python
`round(x)` for the integer part. -/
def roundHalfEven (q : ℚ) : ℤ :=
  let f := ⌊q⌋
  let r := q - f
  if r < 1/2 then f
  else if r > 1/2 then f + 1
  else if f % 2 = 0 then f else f + 1

/-- Python `round(x, 2)` on exact rationals. -/
def round2 (q : ℚ) : ℚ := (roundHalfEven (q * 100) : ℚ) / 100

/-- Exceptions raised by the program. -/
inductive PyError where
  | typeError (msg : String)
  | valueError (msg : String)
  | indexError (msg : String)
  | unboundLocalError (nm : String)
  deriving DecidableEq, Repr

/-- One element of `conversation_history`: the dict built in
`AICharacter.speak` with keys `timestamp`, `user`, `assistant`, `model`. -/
structure ConversationRecord where
  timestamp : String
  user : String
  assistant : String
  model : String
  deriving DecidableEq, Repr

/-- Python `record.get(key, dflt)` on a conversation-record dict: the records
appended by `speak` carry exactly the four keys above, every other key falls
back to the default. -/
def ConversationRecord.get (r : ConversationRecord) (key dflt : String) : String :=
  if key = "timestamp" then r.timestamp
  else if key = "user" then r.user
  else if key = "assistant" then r.assistant
  else if key = "model" then r.model
  else dflt

/-- State of an `AICharacter` instance.  `created_at` is wall-clock data with
no bearing on any claim and is omitted.  `__api_key` is name-mangled private
state, reachable only through the property accessors below. -/
structure AICharacter where
  _name : String
  _system_prompt : String
  model : String
  conversation_history : List ConversationRecord
  apiKey : Option String
  rateLimit : Nat
  deriving DecidableEq, Repr

/-- Property getter `name`. -/
def AICharacter.name (c : AICharacter) : String := c._name

/-- Magic method `__len__`: length of the conversation history. -/
def AICharacter.pyLen (c : AICharacter) : Nat := c.conversation_history.length

/-- Constructor `AICharacter.__init__(name, system_prompt, model)`:
`self._name = name` is a plain attribute write (no validation);
`self.system_prompt = system_prompt` goes through the property setter, which
raises `ValueError` for an empty or over-long prompt; the history starts
empty, `__api_key` is `None` and `__rate_limit` is `1000`. -/
def AICharacter.init (name system_prompt model : String) : Except PyError AICharacter :=
  if system_prompt = "" then
    Except.error (PyError.valueError "系统提示词不能为空")
  else if 1000 < system_prompt.length then
    Except.error (PyError.valueError "系统提示词过长，请精简到1000字符以内")
  else
    Except.ok { _name := name, _system_prompt := system_prompt, model := model,
                conversation_history := [], apiKey := none, rateLimit := 1000 }

/-- Property setter `name`: raises `ValueError` when the value is empty or
whitespace-only, raises `ValueError` when `len(value) > 50` (note: length of
the raw value, before stripping), otherwise stores `value.strip()`. -/
def AICharacter.set_name (c : AICharacter) (value : String) : AICharacter × Option PyError :=
  if value = "" ∨ pyStrip value = "" then
    (c, some (PyError.valueError "角色名不能为空"))
  else if 50 < value.length then
    (c, some (PyError.valueError "角色名不能超过50个字符"))
  else
    ({ c with _name := pyStrip value }, none)

/-- Property setter `api_key`: raises `ValueError` unless the value starts
with `sk-`, has length at least 20 and contains no space; on success stores
the raw value in `__api_key`. -/
def AICharacter.set_api_key (c : AICharacter) (value : String) : AICharacter × Option PyError :=
  if !(pyStartsWith value "sk-") then
    (c, some (PyError.valueError "API Key应以\"sk-\"开头"))
  else if value.length < 20 then
    (c, some (PyError.valueError "API Key太短，可能无效"))
  else if strIn " " value then
    (c, some (PyError.valueError "API Key不能包含空格"))
  else
    ({ c with apiKey := some value }, none)

/-- Property getter `api_key`: `None` when `__api_key` is unset or empty
(Python truthiness), otherwise the masked projection
`key[:3] + "*" * (len(key) - 7) + (key[-4:] if len(key) > 7 else "")`. -/
def AICharacter.api_key_get (c : AICharacter) : Option String :=
  match c.apiKey with
  | none => none
  | some key =>
    if key = "" then none
    else
      some (pyTake key 3 ++ String.mk (List.replicate (key.length - 7) '*')
            ++ (if 7 < key.length then pyTakeLast key 4 else ""))

/-- Keyword table `rule_response` of `AICharacter.speak`, in source order; the
f-string templates embed the character's name. -/
def rule_response (name : String) : List (String × List String) :=
  [("名字", ["我叫" ++ name ++ "，我是一个AI助手", "我是" ++ name ++ "，请问有什么可以帮您"]),
   ("你好", ["你好呀", "嗨！很高兴见到你", "你好，请问有什么可以帮您"]),
   ("天气", ["今天下雨，记得带雨伞哦！", "今天大晴天，可以出去散散步，记得防晒哦", "今天天气不错呢"]),
   ("秋天", ["秋天是丰收的季节，我喜欢秋天", "我喜欢秋天的凉爽"]),
   ("谢谢", ["不客气。", "很高兴帮到您！", "这是我应该做的。"])]

/-- Reply selection of `AICharacter.speak`: scan the keyword table in order,
take the first keyword occurring as a substring of `text` and pick one of its
templates (`random.choice`, modelled by `pick`); `template.format(name=...)`
is the identity because no template contains a `name` placeholder.  When no
keyword matches, return the deterministic fallback embedding name and text. -/
def chooseResponse (name text : String) (pick : Nat) : String :=
  match (rule_response name).find? (fun kv => strIn kv.1 text) with
  | some kv => kv.2.getD (pick % kv.2.length) ""
  | none => name ++ ":我是你爹，不太明白" ++ text ++ "的意思，你可以问我天气，名字，或者打招呼哦。"

/-- Method `AICharacter.speak` (with the `validate_input` decorator): raises
before any mutation when the stripped text is empty or the raw text longer
than 1000 characters; otherwise computes the reply, appends one record
`(timestamp, user, assistant, model)` to the history and returns the reply. -/
def AICharacter.speak (c : AICharacter) (text ts : String) (pick : Nat) :
    AICharacter × Except PyError String :=
  if pyStrip text = "" then
    (c, Except.error (PyError.typeError "输入不能位空"))
  else if 1000 < text.length then
    (c, Except.error (PyError.typeError "输入过长，请控制在1000字符以内"))
  else
    let ai_response := chooseResponse c.name text pick
    let conversation_record : ConversationRecord :=
      { timestamp := ts, user := text, assistant := ai_response, model := c.model }
    ({ c with conversation_history := c.conversation_history ++ [conversation_record] },
     Except.ok ai_response)

/-- Operand of `AICharacter.__add__`: either another character or any value
of a different runtime type. -/
inductive PyValue where
  | character (c : AICharacter)
  | other (tag : String)

/-- Magic method `AICharacter.__add__`: raises `TypeError` on a
non-character operand; otherwise builds a fresh character via
`AICharacter(name=f"{self.name}&{other.name}", system_prompt="merged Character")`
(the prompt is valid, so construction succeeds, with the default model) and
replaces its history with `self.conversation_history + other.conversation_history`. -/
def AICharacter.hadd (self : AICharacter) (other : PyValue) : Except PyError AICharacter :=
  match other with
  | PyValue.other _ => Except.error (PyError.typeError "只能合并AICharacter对象")
  | PyValue.character o =>
      Except.ok { _name := self.name ++ "&" ++ o.name,
                  _system_prompt := "merged Character",
                  model := "gpt-3.5-turbo",
                  conversation_history := self.conversation_history ++ o.conversation_history,
                  apiKey := none, rateLimit := 1000 }

/-- State of an `AdvancedAICharacter` instance: the inherited base fields plus
`role`, `token_used`, `skills` and the private `_performance_score`. -/
structure AdvancedAICharacter where
  _name : String
  _system_prompt : String
  model : String
  conversation_history : List ConversationRecord
  apiKey : Option String
  rateLimit : Nat
  role : String
  token_used : Nat
  skills : List (String × Int)
  performance_score : Int
  deriving DecidableEq, Repr

/-- View of an advanced character as its base part, used to delegate to
`super().speak`. -/
def AdvancedAICharacter.toBase (a : AdvancedAICharacter) : AICharacter :=
  { _name := a._name, _system_prompt := a._system_prompt, model := a.model,
    conversation_history := a.conversation_history, apiKey := a.apiKey,
    rateLimit := a.rateLimit }

/-- Method `AdvancedAICharacter.update_token_usage`: add the word counts of
the input and output messages to `token_used`. -/
def AdvancedAICharacter.update_token_usage (a : AdvancedAICharacter)
    (input_message output_message : String) : AdvancedAICharacter :=
  { a with token_used := a.token_used + (wordCount input_message + wordCount output_message) }

/-- Method `AdvancedAICharacter._format_response_by_role`: prepend a role
label for `reviewer` and `tutor`, otherwise return the reply unchanged. -/
def AdvancedAICharacter.format_response_by_role (a : AdvancedAICharacter)
    (response : String) : String :=
  if a.role = "reviewer" then "审查意见：" ++ response
  else if a.role = "tutor" then "导师回答" ++ response
  else response

/-- Replacement of `last_record["assistant"]` performed by the override:
rewrite the `assistant` field of the last list element. -/
def updateLastAssistant : List ConversationRecord → String → List ConversationRecord
  | [], _ => []
  | [r], s => [{ r with assistant := s }]
  | r :: r2 :: rs, s => r :: updateLastAssistant (r2 :: rs) s

/-- Override `AdvancedAICharacter.speak`: prefix the input according to the
role, delegate to the base `speak` (validation, reply selection, ledger
append — an exception from it propagates with no mutation), add the word
counts to `token_used`, format the reply by role, overwrite the `assistant`
field of the last history record with the formatted reply when the history is
non-empty, and return the formatted reply. -/
def AdvancedAICharacter.speak (a : AdvancedAICharacter) (text ts : String) (pick : Nat) :
    AdvancedAICharacter × Except PyError String :=
  let prefixed_text :=
    if a.role = "tutor" then "【学生提问】" ++ text
    else if a.role = "reviewer" then "【代码审查】" ++ text
    else text
  match AICharacter.speak a.toBase prefixed_text ts pick with
  | (_, Except.error e) => (a, Except.error e)
  | (c1, Except.ok response) =>
    let a1 := { a with conversation_history := c1.conversation_history }
    let a2 := a1.update_token_usage prefixed_text response
    let formatted_response := a2.format_response_by_role response
    if a2.conversation_history = [] then (a2, Except.ok formatted_response)
    else
      ({ a2 with conversation_history :=
           updateLastAssistant a2.conversation_history formatted_response },
       Except.ok formatted_response)

/-- Date part of an ISO-8601 timestamp string, used to compare
`datetime.fromisoformat(ts).date()` with "today".  The ledger only ever holds
`datetime.now().isoformat()` strings, whose date is the prefix before `T`. -/
def isoDate (ts : String) : String := String.mk (ts.data.takeWhile (fun c => c ≠ 'T'))

/-- Result dict of `AIConversationAnalyzer.get_conversation_stats` for a
non-empty history. -/
structure ConversationStats where
  total_conversation : Nat
  today_conversation : Nat
  avg_user_words : ℚ
  avg_assistant_words : ℚ
  first_conversation : Option String
  last_conversation : Option String
  deriving DecidableEq, Repr

/-- Return value of `get_conversation_stats`: the early-return dict
`{"total": 0, "message": ...}` for an empty history, or the full stats. -/
inductive StatsResult where
  | emptyLedger (total : Nat) (message : String)
  | stats (s : ConversationStats)
  deriving DecidableEq, Repr

/-- Method `AIConversationAnalyzer.get_conversation_stats`.  Note that the
source sums `conv.get("users", "")` — key `users`, which no record carries —
into `total_user_words`, while the records store the user text under key
`user`; `total_assistant_words` uses the correct key `assistant`. -/
def get_conversation_stats (c : AICharacter) (today : String) : StatsResult :=
  if c.conversation_history = [] then StatsResult.emptyLedger 0 "暂无对话记录"
  else
    let total := c.conversation_history.length
    let today_conversation :=
      (c.conversation_history.filter (fun conv => isoDate conv.timestamp = today)).length
    let total_user_words :=
      (c.conversation_history.map (fun conv => wordCount (conv.get "users" ""))).sum
    let total_assistant_words :=
      (c.conversation_history.map (fun conv => wordCount (conv.get "assistant" ""))).sum
    StatsResult.stats
      { total_conversation := total,
        today_conversation := today_conversation,
        avg_user_words := if 0 < total then round2 ((total_user_words : ℚ) / total) else 0,
        avg_assistant_words := if 0 < total then round2 ((total_assistant_words : ℚ) / total) else 0,
        first_conversation := c.conversation_history.head?.map (fun r => r.timestamp),
        last_conversation := c.conversation_history.getLast?.map (fun r => r.timestamp) }

/-- Method `AIConversationAnalyzer.export_conversations`.  The loop body
evaluates `conv("timestamp")` — it calls the record dict as a function
instead of indexing it — so the first iteration raises
`TypeError: dict object is not callable`; the date filtering below that line
is unreachable.  With an empty history the loop body never runs and the
empty list is returned. -/
def export_conversations (c : AICharacter) (start_date end_date : Option String) :
    Except PyError (List ConversationRecord) :=
  if c.conversation_history = [] then Except.ok []
  else Except.error (PyError.typeError "dict object is not callable")

/-- Per-character entry of the `batch_converse` results dict. -/
structure BatchResult where
  response : String
  success : Bool
  deriving DecidableEq, Repr

/-- Assignment `results[k] = v` on a dict modelled as an ordered association
list: replace the value when the key exists, otherwise append. -/
def dictInsert (d : List (String × BatchResult)) (k : String) (v : BatchResult) :
    List (String × BatchResult) :=
  if d.any (fun kv => kv.1 = k) then d.map (fun kv => if kv.1 = k then (k, v) else kv)
  else d ++ [(k, v)]

/-- Loop of `AIConversationBatchProcessor.batch_converse`.  The local variable
`response` is only assigned in the `try` block; the `except` block stores the
current value of `response` into the failure entry, so on a failure it reuses
the reply of an earlier successful iteration (threaded here as
`response? : Option String`), and when no iteration has succeeded yet the
read raises `UnboundLocalError`, which is not caught and aborts the batch.
The characters are mutated in place by `speak`; the updated states are not
part of the returned dict and are dropped here. -/
def batchConverseGo (message ts : String) (pick : Nat) :
    List AICharacter → List (String × BatchResult) → Option String →
    Except PyError (List (String × BatchResult))
  | [], results, _ => Except.ok results
  | char :: rest, results, response? =>
    match AICharacter.speak char message ts pick with
    | (_, Except.ok resp) =>
        batchConverseGo message ts pick rest
          (dictInsert results char.name { response := resp, success := true }) (some resp)
    | (_, Except.error _) =>
        match response? with
        | none => Except.error (PyError.unboundLocalError "response")
        | some r =>
            batchConverseGo message ts pick rest
              (dictInsert results char.name { response := r, success := false }) (some r)

/-- Static method `AIConversationBatchProcessor.batch_converse`. -/
def batch_converse (characters : List AICharacter) (message ts : String) (pick : Nat) :
    Except PyError (List (String × BatchResult)) :=
  batchConverseGo message ts pick characters [] none

/-- Heap-level view of a character for the aliasing statement about
`__add__`: the ledger lives in a store of lists and the character holds a
reference into it.  `name` is the only other field the merge claim touches. -/
structure RefChar where
  name : String
  ledgerRef : Nat
  deriving DecidableEq, Repr

/-- Heap-level `AICharacter.__add__`: `self.conversation_history +
other.conversation_history` evaluates both operands' lists and allocates a
fresh list for the result, which the merged character's
`conversation_history` is then bound to; the operands' lists are not
touched. -/
def heapMerge (σ : List (List ConversationRecord)) (a b : RefChar) :
    List (List ConversationRecord) × RefChar :=
  (σ ++ [σ.getD a.ledgerRef [] ++ σ.getD b.ledgerRef []],
   { name := a.name ++ "&" ++ b.name, ledgerRef := σ.length })

/-- Concrete character used to instantiate hypotheses of the theorems below
(the fixture of `test_character_comprehensive.py`, freshly constructed). -/
def testChar : AICharacter :=
  { _name := "测试助手", _system_prompt := "测试提示", model := "gpt-3.5-turbo",
    conversation_history := [], apiKey := none, rateLimit := 1000 }

/-- C1: on input that is empty after stripping, `speak` raises before any
mutation: the returned state is the receiver itself, so the conversation
ledger is unchanged, no record is appended, and its length is unchanged. -/
theorem claim_c1 (c : AICharacter) (text ts : String) (pick : Nat)
    (h : pyStrip text = "") :
    AICharacter.speak c text ts pick
      = (c, Except.error (PyError.typeError "输入不能位空"))
    ∧ (AICharacter.speak c text ts pick).1.conversation_history = c.conversation_history
    ∧ (AICharacter.speak c text ts pick).1.conversation_history.length
        = c.conversation_history.length := by
  refine ⟨?_, ?_, ?_⟩ <;> simp [AICharacter.speak, h]

/-- Witness for C1 at the whitespace-only input `" "`. -/
theorem claim_c1_witness :
    pyStrip " " = ""
    ∧ (AICharacter.speak testChar " " "2024-01-01T00:00:00" 0
        = (testChar, Except.error (PyError.typeError "输入不能位空"))
      ∧ (AICharacter.speak testChar " " "2024-01-01T00:00:00" 0).1.conversation_history
          = testChar.conversation_history
      ∧ (AICharacter.speak testChar " " "2024-01-01T00:00:00" 0).1.conversation_history.length
          = testChar.conversation_history.length) :=
  ⟨by decide, claim_c1 testChar " " "2024-01-01T00:00:00" 0 (by decide)⟩

/-- C2 counterexample: a 51-character name whose trimmed form has length 50
(well inside the claimed valid range 1–50) is rejected by the name setter,
because the source checks `len(value) > 50` on the raw value before
stripping. -/
theorem claim_c2_counterexample :
    1 ≤ (pyStrip (String.mk (List.replicate 50 'a' ++ [' ']))).length
    ∧ (pyStrip (String.mk (List.replicate 50 'a' ++ [' ']))).length ≤ 50
    ∧ (AICharacter.set_name testChar (String.mk (List.replicate 50 'a' ++ [' ']))).2
        = some (PyError.valueError "角色名不能超过50个字符")
    ∧ (AICharacter.set_name testChar (String.mk (List.replicate 50 'a' ++ [' ']))).1
        = testChar := by
  refine ⟨by decide, by decide, by decide, by decide⟩

/-- C2 amended: the name setter succeeds and stores the stripped value
exactly when the raw value is not whitespace-only and its *untrimmed* length
is at most 50; when the value is empty/whitespace-only or its untrimmed
length exceeds 50 it fails with a validation error and the prior name (the
whole prior state) is retained. -/
theorem claim_c2_amended (c : AICharacter) (value : String) :
    (pyStrip value ≠ "" ∧ value.length ≤ 50 →
      AICharacter.set_name c value = ({ c with _name := pyStrip value }, none))
    ∧ (pyStrip value = "" ∨ 50 < value.length →
      (AICharacter.set_name c value).1 = c
      ∧ ((AICharacter.set_name c value).2).isSome = true) := by
  constructor
  · rintro ⟨h1, h2⟩
    have hv : ¬(value = "" ∨ pyStrip value = "") := by
      rintro (rfl | h)
      · exact h1 rfl
      · exact h1 h
    simp [AICharacter.set_name, hv, Nat.not_lt.mpr h2]
  · intro h
    by_cases hv : value = "" ∨ pyStrip value = ""
    · simp [AICharacter.set_name, hv]
    · rcases h with h | h
      · exact absurd (Or.inr h) hv
      · simp [AICharacter.set_name, hv, h]

/-- Witness for C2 amended: `" bob "` (trimmed length 3) is accepted and
stored stripped; a raw string of 51 `b`s is rejected with the state
retained. -/
theorem claim_c2_amended_witness :
    AICharacter.set_name testChar " bob "
      = ({ testChar with _name := pyStrip " bob " }, none)
    ∧ ((AICharacter.set_name testChar (String.mk (List.replicate 51 'b'))).1 = testChar
      ∧ ((AICharacter.set_name testChar (String.mk (List.replicate 51 'b'))).2).isSome = true) :=
  ⟨(claim_c2_amended testChar " bob ").1 ⟨by decide, by decide⟩,
   (claim_c2_amended testChar (String.mk (List.replicate 51 'b'))).2 (Or.inr (by decide))⟩

/-- C4: merging two characters yields a character whose ledger is the
concatenation of the operands' ledgers in order, whose `__len__` is the sum
of the operands' `__len__`s, and whose name is the operands' names joined by
`&`; `__add__` with a non-character operand raises `TypeError`. -/
theorem claim_c4 (a b : AICharacter) (tag : String) :
    (∃ m, AICharacter.hadd a (PyValue.character b) = Except.ok m
      ∧ m.conversation_history = a.conversation_history ++ b.conversation_history
      ∧ m.pyLen = a.pyLen + b.pyLen
      ∧ m.name = a.name ++ "&" ++ b.name)
    ∧ AICharacter.hadd a (PyValue.other tag)
        = Except.error (PyError.typeError "只能合并AICharacter对象") := by
  refine ⟨⟨_, rfl, rfl, ?_, rfl⟩, rfl⟩
  simp [AICharacter.pyLen, AICharacter.hadd]

/-- C10: direct construction validates only the prompt, never the name: for
any name string whatsoever (empty, whitespace-only, longer than 50 — no
constraint appears in the hypotheses), construction with a valid prompt
succeeds and the `name` property reads back exactly the given string,
untrimmed. -/
theorem claim_c10 (name system_prompt model : String)
    (h1 : system_prompt ≠ "") (h2 : system_prompt.length ≤ 1000) :
    ∃ c, AICharacter.init name system_prompt model = Except.ok c
      ∧ c._name = name ∧ c.name = name ∧ c.conversation_history = [] := by
  refine ⟨{ _name := name, _system_prompt := system_prompt, model := model,
            conversation_history := [], apiKey := none, rateLimit := 1000 },
          ?_, rfl, rfl, rfl⟩
  simp [AICharacter.init, h1, Nat.not_lt.mpr h2]

/-- Witness for C10 at a 51-character whitespace-only name (both untrimmed
over-length and whitespace-only, the extreme cases of the claim). -/
theorem claim_c10_witness :
    ∃ c, AICharacter.init (String.mk (List.replicate 51 ' ')) "提示" "gpt-4" = Except.ok c
      ∧ c._name = String.mk (List.replicate 51 ' ')
      ∧ c.name = String.mk (List.replicate 51 ' ')
      ∧ c.conversation_history = [] :=
  claim_c10 (String.mk (List.replicate 51 ' ')) "提示" "gpt-4" (by decide) (by decide)

/-- C8: for every credential starting with `sk-`, of length at least 20 and
containing no space, the setter succeeds and stores the raw value; the
subsequent masked read returns the first 3 characters, then `*` repeated
`length - 7` times, then the last 4 characters — the projection is computed
on read from the stored raw value, which the getter never returns in full. -/
theorem claim_c8 (c : AICharacter) (value : String)
    (h1 : pyStartsWith value "sk-" = true) (h2 : 20 ≤ value.length)
    (h3 : strIn " " value = false) :
    (AICharacter.set_api_key c value).2 = none
    ∧ (AICharacter.set_api_key c value).1.apiKey = some value
    ∧ AICharacter.api_key_get (AICharacter.set_api_key c value).1
        = some (pyTake value 3 ++ String.mk (List.replicate (value.length - 7) '*')
                ++ pyTakeLast value 4) := by
  have hlen : ¬ value.length < 20 := by omega
  have hne : ¬ value = "" := by
    intro h
    subst h
    exact absurd h2 (by decide)
  have h7 : 7 < value.length := by omega
  have hset : AICharacter.set_api_key c value = ({ c with apiKey := some value }, none) := by
    simp [AICharacter.set_api_key, h1, hlen, h3]
  rw [hset]
  refine ⟨rfl, rfl, ?_⟩
  simp [AICharacter.api_key_get, hne, h7]

/-- Witness for C8 at the 20-character credential `sk-12345678901234567`. -/
theorem claim_c8_witness :
    (AICharacter.set_api_key testChar "sk-12345678901234567").2 = none
    ∧ (AICharacter.set_api_key testChar "sk-12345678901234567").1.apiKey
        = some "sk-12345678901234567"
    ∧ AICharacter.api_key_get (AICharacter.set_api_key testChar "sk-12345678901234567").1
        = some (pyTake "sk-12345678901234567" 3
                ++ String.mk (List.replicate (("sk-12345678901234567" : String).length - 7) '*')
                ++ pyTakeLast "sk-12345678901234567" 4) :=
  claim_c8 testChar "sk-12345678901234567" (by decide) (by decide) (by decide)

/-- C9: at the heap level, `__add__` leaves both operands untouched — the
store entries their `ledgerRef`s point to are unchanged — and binds the
merged character to a freshly allocated list (a reference distinct from both
operands') holding the concatenation of the two ledgers; the merged name is
the operands' names joined with `&`. -/
theorem claim_c9 (σ : List (List ConversationRecord)) (a b : RefChar)
    (ha : a.ledgerRef < σ.length) (hb : b.ledgerRef < σ.length) :
    ((heapMerge σ a b).1).getD a.ledgerRef [] = σ.getD a.ledgerRef []
    ∧ ((heapMerge σ a b).1).getD b.ledgerRef [] = σ.getD b.ledgerRef []
    ∧ (heapMerge σ a b).2.name = a.name ++ "&" ++ b.name
    ∧ (heapMerge σ a b).2.ledgerRef ≠ a.ledgerRef
    ∧ (heapMerge σ a b).2.ledgerRef ≠ b.ledgerRef
    ∧ ((heapMerge σ a b).1).getD (heapMerge σ a b).2.ledgerRef []
        = σ.getD a.ledgerRef [] ++ σ.getD b.ledgerRef [] := by
  refine ⟨?_, ?_, rfl, ?_, ?_, ?_⟩
  · simp [heapMerge, List.getD_eq_getElem?_getD, List.getElem?_append_left ha]
  · simp [heapMerge, List.getD_eq_getElem?_getD, List.getElem?_append_left hb]
  · simp only [heapMerge]
    omega
  · simp only [heapMerge]
    omega
  · simp [heapMerge, List.getD_eq_getElem?_getD, List.getElem?_concat_length]

/-- Record and store used to instantiate the heap-level merge statement. -/
def heapRecord : ConversationRecord :=
  { timestamp := "2024-01-01T09:00:00", user := "你好", assistant := "你好呀",
    model := "gpt-3.5-turbo" }

/-- Witness for C9 on the concrete store `[[heapRecord], []]`. -/
theorem claim_c9_witness :
    ((heapMerge [[heapRecord], []] ⟨"A", 0⟩ ⟨"B", 1⟩).1).getD 0 []
        = ([[heapRecord], []] : List (List ConversationRecord)).getD 0 []
    ∧ ((heapMerge [[heapRecord], []] ⟨"A", 0⟩ ⟨"B", 1⟩).1).getD 1 []
        = ([[heapRecord], []] : List (List ConversationRecord)).getD 1 []
    ∧ (heapMerge [[heapRecord], []] ⟨"A", 0⟩ ⟨"B", 1⟩).2.name = "A" ++ "&" ++ "B"
    ∧ (heapMerge [[heapRecord], []] ⟨"A", 0⟩ ⟨"B", 1⟩).2.ledgerRef ≠ 0
    ∧ (heapMerge [[heapRecord], []] ⟨"A", 0⟩ ⟨"B", 1⟩).2.ledgerRef ≠ 1
    ∧ ((heapMerge [[heapRecord], []] ⟨"A", 0⟩ ⟨"B", 1⟩).1).getD
          (heapMerge [[heapRecord], []] ⟨"A", 0⟩ ⟨"B", 1⟩).2.ledgerRef []
        = ([[heapRecord], []] : List (List ConversationRecord)).getD 0 []
          ++ ([[heapRecord], []] : List (List ConversationRecord)).getD 1 [] :=
  claim_c9 [[heapRecord], []] ⟨"A", 0⟩ ⟨"B", 1⟩ (by decide) (by decide)

/-- Character with a single ledger record, used for the analyzer claims. -/
def oneRecord : ConversationRecord :=
  { timestamp := "2024-01-01T10:00:00", user := "hello world", assistant := "ok then",
    model := "gpt-3.5-turbo" }

/-- Character owning exactly the ledger `[oneRecord]`. -/
def oneRecordChar : AICharacter := { testChar with conversation_history := [oneRecord] }

/-- C7: on every character with at least one ledger record, the export-range
operation raises `TypeError` — the loop body calls the record dict
(`conv("timestamp")`) instead of indexing it — so it never returns the
records of the requested range, for any bounds. -/
theorem claim_c7 (c : AICharacter) (s e : Option String)
    (h : c.conversation_history ≠ []) :
    export_conversations c s e
      = Except.error (PyError.typeError "dict object is not callable") := by
  simp [export_conversations, h]

/-- Witness for C7: a one-record ledger with both bounds absent (so the claim
would require all records returned) raises instead. -/
theorem claim_c7_witness :
    oneRecordChar.conversation_history ≠ []
    ∧ export_conversations oneRecordChar none none
        = Except.error (PyError.typeError "dict object is not callable") :=
  ⟨by decide, claim_c7 oneRecordChar none none (by decide)⟩

/-- C6: evaluation of `batch_converse` at a failing input.  `speak` on the
whitespace-only message fails for the (first and only) character; instead of
recording a per-character failure result and continuing, the except-branch
reads the never-assigned local `response` and the whole batch aborts with
`UnboundLocalError`. -/
theorem claim_c6 :
    (AICharacter.speak testChar " " "2024-01-01T00:00:00" 0).2
      = Except.error (PyError.typeError "输入不能位空")
    ∧ batch_converse [testChar] " " "2024-01-01T00:00:00" 0
      = Except.error (PyError.unboundLocalError "response") :=
  ⟨rfl, rfl⟩

/-- C5: evaluation of the stats operation on a one-record ledger whose user
text has two words.  The code returns an average user word count of 0
(it sums `conv.get("users", "")`, a key no record carries), while the average
word count of the records' `user` texts — which the claim specifies — is 2. -/
theorem claim_c5 :
    get_conversation_stats oneRecordChar "2024-01-02"
      = StatsResult.stats
          { total_conversation := 1, today_conversation := 0,
            avg_user_words := 0, avg_assistant_words := 2,
            first_conversation := some "2024-01-01T10:00:00",
            last_conversation := some "2024-01-01T10:00:00" }
    ∧ round2 (((oneRecordChar.conversation_history.map
          (fun conv => wordCount conv.user)).sum : ℚ)
        / oneRecordChar.conversation_history.length) = 2
    ∧ (0 : ℚ) ≠ 2 := by
  have hne : ¬(oneRecordChar.conversation_history = []) := by decide
  have hu : (oneRecordChar.conversation_history.map
      (fun conv => wordCount (conv.get "users" ""))).sum = 0 := by decide
  have ha2 : (oneRecordChar.conversation_history.map
      (fun conv => wordCount (conv.get "assistant" ""))).sum = 2 := by decide
  have hT : (oneRecordChar.conversation_history.filter
      (fun conv => isoDate conv.timestamp = "2024-01-02")).length = 0 := by decide
  have hlen : oneRecordChar.conversation_history.length = 1 := by decide
  have hf : oneRecordChar.conversation_history.head?.map (fun r => r.timestamp)
      = some "2024-01-01T10:00:00" := by decide
  have hl : oneRecordChar.conversation_history.getLast?.map (fun r => r.timestamp)
      = some "2024-01-01T10:00:00" := by decide
  have hu2 : (oneRecordChar.conversation_history.map
      (fun conv => wordCount conv.user)).sum = 2 := by decide
  refine ⟨?_, ?_, by norm_num⟩
  · simp only [get_conversation_stats, if_neg hne, hu, ha2, hT, hlen, hf, hl]
    norm_num [round2, roundHalfEven]
  · rw [hu2, hlen]
    norm_num [round2, roundHalfEven]

/-- Property getter `name` inherited by the advanced character. -/
def AdvancedAICharacter.name (a : AdvancedAICharacter) : String := a._name

theorem pyWordsAux_length_pos (cs : List Char) : ∀ acc, acc ≠ [] →
    1 ≤ (pyWordsAux cs acc).length := by
  induction cs with
  | nil =>
    intro acc h
    simp [pyWordsAux, h]
  | cons c cs ih =>
    intro acc h
    by_cases hw : wsChar c
    · simp [pyWordsAux, hw, h]
    · simpa [pyWordsAux, hw] using ih (c :: acc) (by simp)

/-- The review-prefixed input always counts at least one word, because it
starts with the non-whitespace character `【`. -/
theorem wordCount_reviewPrefix_pos (text : String) :
    1 ≤ wordCount ("【代码审查】" ++ text) := by
  have hd : ("【代码审查】" ++ text).data = '【' :: ("代码审查】".data ++ text.data) := by
    rw [String.data_append]
    rfl
  have hw : wsChar '【' = false := by decide
  simp only [wordCount, pyWords, hd, pyWordsAux, hw, Bool.false_eq_true, if_false]
  exact pyWordsAux_length_pos _ _ (by simp)

theorem updateLastAssistant_append (l : List ConversationRecord)
    (r : ConversationRecord) (s : String) :
    updateLastAssistant (l ++ [r]) s = l ++ [{ r with assistant := s }] := by
  induction l with
  | nil => rfl
  | cons x xs ih =>
    cases xs with
    | nil => rfl
    | cons y ys => simpa [updateLastAssistant] using ih

/-- Successful run of the overridden `speak` for role `reviewer`, written
out: the input gets the review prefix, the base engine appends the record,
the token counter grows by the word counts of the prefixed input and the raw
reply, and the formatted reply overwrites the `assistant` field of the
appended record. -/
theorem advSpeak_reviewer (a : AdvancedAICharacter) (text ts : String) (pick : Nat)
    (hrole : a.role = "reviewer")
    (h1 : ¬ pyStrip ("【代码审查】" ++ text) = "")
    (h2 : ¬ 1000 < ("【代码审查】" ++ text).length) :
    AdvancedAICharacter.speak a text ts pick
      = ({ a with
            conversation_history := a.conversation_history ++
              [{ timestamp := ts, user := "【代码审查】" ++ text,
                 assistant := "审查意见：" ++ chooseResponse a.name ("【代码审查】" ++ text) pick,
                 model := a.model }],
            token_used := a.token_used + (wordCount ("【代码审查】" ++ text)
              + wordCount (chooseResponse a.name ("【代码审查】" ++ text) pick)) },
         Except.ok ("审查意见：" ++ chooseResponse a.name ("【代码审查】" ++ text) pick)) := by
  have hb : AICharacter.speak
        { _name := a._name, _system_prompt := a._system_prompt, model := a.model,
          conversation_history := a.conversation_history, apiKey := a.apiKey,
          rateLimit := a.rateLimit } ("【代码审查】" ++ text) ts pick
      = ({ _name := a._name, _system_prompt := a._system_prompt, model := a.model,
           conversation_history := a.conversation_history ++
             [{ timestamp := ts, user := "【代码审查】" ++ text,
                assistant := chooseResponse a.name ("【代码审查】" ++ text) pick,
                model := a.model }],
           apiKey := a.apiKey, rateLimit := a.rateLimit },
         Except.ok (chooseResponse a.name ("【代码审查】" ++ text) pick)) := by
    simp only [AICharacter.speak, if_neg h1, if_neg h2, AICharacter.name,
      AdvancedAICharacter.toBase, AdvancedAICharacter.name]
  simp [AdvancedAICharacter.speak, hrole, hb, AdvancedAICharacter.update_token_usage,
    AdvancedAICharacter.format_response_by_role, updateLastAssistant_append,
    AdvancedAICharacter.toBase, AdvancedAICharacter.name]

theorem pyStartsWith_append (p s : String) : pyStartsWith (p ++ s) p = true := by
  rw [pyStartsWith, String.data_append, List.isPrefixOf_iff_prefix]
  exact List.prefix_append p.data s.data

/-- C3: every successful `speak` of a role-`reviewer` advanced character
appends exactly one ledger record; its stored `assistant` text is the
post-formatted reply `"审查意见：" ++ raw` (the raw engine output is
overwritten in the just-appended record, which carries the prefixed user
text, the timestamp and the model snapshot), the same string is returned,
and `token_used` strictly increases by at least 1. -/
theorem claim_c3 (a : AdvancedAICharacter) (text ts : String) (pick : Nat)
    (hrole : a.role = "reviewer")
    (hok : ((AdvancedAICharacter.speak a text ts pick).2).isOk = true) :
    ∃ raw : String,
      (AdvancedAICharacter.speak a text ts pick).1.conversation_history
        = a.conversation_history ++
            [{ timestamp := ts, user := "【代码审查】" ++ text,
               assistant := "审查意见：" ++ raw, model := a.model }]
      ∧ (AdvancedAICharacter.speak a text ts pick).2 = Except.ok ("审查意见：" ++ raw)
      ∧ pyStartsWith ("审查意见：" ++ raw) "审查意见：" = true
      ∧ a.token_used + 1 ≤ (AdvancedAICharacter.speak a text ts pick).1.token_used := by
  by_cases h1 : pyStrip ("【代码审查】" ++ text) = ""
  · exfalso
    have hs : AdvancedAICharacter.speak a text ts pick
        = (a, Except.error (PyError.typeError "输入不能位空")) := by
      simp [AdvancedAICharacter.speak, hrole, AICharacter.speak, AdvancedAICharacter.toBase, h1]
    rw [hs] at hok
    simp [Except.isOk, Except.toBool] at hok
  · by_cases h2 : 1000 < ("【代码审查】" ++ text).length
    · exfalso
      have h2x : 1000 < "【代码审查】".length + text.length := by
        rw [← String.length_append]
        exact h2
      have hs : AdvancedAICharacter.speak a text ts pick
          = (a, Except.error (PyError.typeError "输入过长，请控制在1000字符以内")) := by
        simp [AdvancedAICharacter.speak, hrole, AICharacter.speak, AdvancedAICharacter.toBase,
          h1, h2x]
      rw [hs] at hok
      simp [Except.isOk, Except.toBool] at hok
    · refine ⟨chooseResponse a.name ("【代码审查】" ++ text) pick, ?_, ?_, ?_, ?_⟩
      · rw [advSpeak_reviewer a text ts pick hrole h1 h2]
      · rw [advSpeak_reviewer a text ts pick hrole h1 h2]
      · exact pyStartsWith_append "审查意见：" (chooseResponse a.name ("【代码审查】" ++ text) pick)
      · rw [advSpeak_reviewer a text ts pick hrole h1 h2]
        show a.token_used + 1 ≤ a.token_used + (wordCount ("【代码审查】" ++ text)
          + wordCount (chooseResponse a.name ("【代码审查】" ++ text) pick))
        have := wordCount_reviewPrefix_pos text
        omega

/-- Fresh role-`reviewer` advanced character used to instantiate the
specialized-speak claim. -/
def advChar : AdvancedAICharacter :=
  { _name := "审查员", _system_prompt := "你是一位代码审查员", model := "gpt-4",
    conversation_history := [], apiKey := none, rateLimit := 1000,
    role := "reviewer", token_used := 0, skills := [], performance_score := 100 }

/-- Witness for C3: one successful exchange on input `"ping"`. -/
theorem claim_c3_witness :
    ∃ raw : String,
      (AdvancedAICharacter.speak advChar "ping" "2024-01-01T00:00:00" 0).1.conversation_history
        = advChar.conversation_history ++
            [{ timestamp := "2024-01-01T00:00:00", user := "【代码审查】" ++ "ping",
               assistant := "审查意见：" ++ raw, model := advChar.model }]
      ∧ (AdvancedAICharacter.speak advChar "ping" "2024-01-01T00:00:00" 0).2
          = Except.ok ("审查意见：" ++ raw)
      ∧ pyStartsWith ("审查意见：" ++ raw) "审查意见：" = true
      ∧ advChar.token_used + 1
          ≤ (AdvancedAICharacter.speak advChar "ping" "2024-01-01T00:00:00" 0).1.token_used :=
  claim_c3 advChar "ping" "2024-01-01T00:00:00" 0 rfl (by decide)
